import Mathlib

/-!
Shallow embedding of the Digitraffic Home Assistant integration
(custom_components/digitraffic), covering:

* the data model of traffic-message features as read by the code
  (nested dictionaries with optional keys, modelled as structures of
  `Option` fields, a `.get(key, {})` chain becoming an `Option.bind` chain);
* the coordinator's update pass `_async_update_data` (coordinator.py):
  fetch, success timestamp, municipality filter, wholesale replacement,
  failure wrapped in `UpdateFailed`;
* the coordinator's `update_config` (coordinator.py);
* the sensor platform's reconcile pass `_async_add_remove_entities`
  (sensor.py): key extraction from registry unique_ids, diff, removals,
  additions, and the unique_id the created sensor declares;
* the camera's `async_camera_image` (camera.py): cached last image,
  behaviour on HTTP statuses and transport errors.
-/

namespace Digitraffic

/-- Bytes of a fetched camera image. -/
abbrev Bytes := List Nat

/-! ## Data model (sensor.py / coordinator.py read side)

The integration reads API payloads as nested dicts via `.get` chains with
`{}` / `[]` defaults.  Each possibly-absent sub-dictionary becomes an
`Option` field; a `.get("k", {})` followed by further `.get`s becomes an
`Option.bind` chain (absent dict behaves as a dict all of whose lookups
are absent). -/

/-- One of `primaryPoint` / `secondaryPoint` inside `roadAddressLocation`:
the code only reads its `municipality` key. -/
structure RoadPoint where
  municipality : Option String
deriving DecidableEq, Repr

/-- The `roadAddressLocation` dictionary inside `locationDetails`. -/
structure RoadAddressLocation where
  primaryPoint : Option RoadPoint
  secondaryPoint : Option RoadPoint
deriving DecidableEq, Repr

/-- The `locationDetails` dictionary of one announcement. -/
structure LocationDetails where
  roadAddressLocation : Option RoadAddressLocation
deriving DecidableEq, Repr

/-- One element of `properties.announcements`. -/
structure Announcement where
  locationDetails : Option LocationDetails
deriving DecidableEq, Repr

/-- The `properties` dictionary of a GeoJSON feature, restricted to the
keys the reconcile / filter passes read. -/
structure Properties where
  situationId : Option String
  announcements : Option (List Announcement)
deriving DecidableEq, Repr

/-- A traffic-message GeoJSON feature as handled by the code. -/
structure Feature where
  properties : Option Properties
deriving DecidableEq, Repr

/-- Announcement's primary-point municipality:
`ann.get("locationDetails", {}).get("roadAddressLocation", {}).get("primaryPoint", {}).get("municipality")`
(coordinator.py lines 88-94, same chain in sensor.py). -/
def Announcement.primaryMuni (a : Announcement) : Option String :=
  ((a.locationDetails.bind (·.roadAddressLocation)).bind (·.primaryPoint)).bind
    (·.municipality)

/-- Announcement's secondary-point municipality, the analogous chain via
`secondaryPoint` (coordinator.py lines 92-95). -/
def Announcement.secondaryMuni (a : Announcement) : Option String :=
  ((a.locationDetails.bind (·.roadAddressLocation)).bind (·.secondaryPoint)).bind
    (·.municipality)

/-- Announcements of a feature:
`feature.get("properties", {}).get("announcements", [])`
(coordinator.py lines 84-85). -/
def Feature.featureAnnouncements (f : Feature) : List Announcement :=
  ((f.properties.bind (·.announcements)).getD [])

/-- Situation id of a message:
`msg.get("properties", {}).get("situationId")` (sensor.py lines 45, 76). -/
def Feature.situationId (f : Feature) : Option String :=
  f.properties.bind (·.situationId)

/-! ## Coordinator: municipality filter (coordinator.py `_async_update_data`) -/

/-- Python membership test `x in municipalities` where `x` is the result of
a `.get` chain and may be `None`; `None` is never an element of a list of
strings. -/
def optMuniMem (m : Option String) (ms : List String) : Bool :=
  match m with
  | none => false
  | some s => ms.contains s

/-- The body of the inner loop's test (coordinator.py lines 97-100):
`primary_muni in self.municipalities or secondary_muni in self.municipalities`. -/
def annMatches (ms : List String) (a : Announcement) : Bool :=
  optMuniMem a.primaryMuni ms || optMuniMem a.secondaryMuni ms

/-- Whether a feature is appended by the filter loop: the loop appends the
feature and breaks at the first announcement passing `annMatches`
(coordinator.py lines 87-102), i.e. iff some announcement matches. -/
def featureMatches (ms : List String) (f : Feature) : Bool :=
  f.featureAnnouncements.any (annMatches ms)

/-- The list the coordinator publishes on a successful fetch
(coordinator.py lines 74-102): `features = data.get("features", [])`;
if `self.municipalities` is empty ("no municipalities specified"), all
features are returned; otherwise the filter loop keeps, in order, the
features with a matching announcement, each appended at most once because
of the `break`. -/
def publishedFeatures (ms : List String) (features : List Feature) : List Feature :=
  if ms.isEmpty then features
  else features.filter (featureMatches ms)

/-! ## Coordinator state and update cycle (coordinator.py) -/

/-- The API document returned by `fetch_active_messages`: the update pass
reads only `data.get("features", [])` (coordinator.py line 75). -/
structure ApiDoc where
  features : Option (List Feature)
deriving DecidableEq, Repr

/-- Outcome of one call to the fetcher: a parsed document, or a raised
error (any exception: `raise_for_status`, transport, JSON decode), carried
here as its message string `str(err)`. -/
inductive FetchResult where
  | success (doc : ApiDoc)
  | failure (err : String)
deriving DecidableEq, Repr

/-- The coordinator-level error type: `UpdateFailed(msg)` raised at
coordinator.py lines 104-106. -/
inductive UpdateError where
  | updateFailed (msg : String)
deriving DecidableEq, Repr

/-- Mutable state of `DigitrafficDataUpdateCoordinator`: the configured
filters (set in `__init__` / `update_config`), the data published to
entities (held for the coordinator by the framework base class), and
`last_update_time`. -/
structure CoordinatorState where
  municipalities : List String
  situationTypes : Option (List String)
  data : Option (List Feature)
  lastUpdateTime : Option String
deriving DecidableEq, Repr

/-- The body of `_async_update_data` (coordinator.py lines 58-108) with
the fetch outcome and the clock passed in explicitly: on a successful
fetch, record `now` as `last_update_time` and return the (possibly
municipality-filtered) features; on a raised error, raise
`UpdateFailed(f"Digitraffic API error: {err}")` without touching any
state. -/
def asyncUpdateData (st : CoordinatorState) (fetch : FetchResult) (now : String) :
    Except UpdateError (CoordinatorState × List Feature) :=
  match fetch with
  | .success doc =>
      .ok ({ st with lastUpdateTime := some now },
           publishedFeatures st.municipalities (doc.features.getD []))
  | .failure err =>
      .error (.updateFailed ("Digitraffic API error: " ++ err))

/-- Modelled from the spec: the refresh step of Home Assistant's
`DataUpdateCoordinator` base class (framework code, not in this
repository): a value returned by `_async_update_data` replaces the
coordinator's published data wholesale, while a raised `UpdateFailed`
leaves the previously published data in place ("preserve the
last-known-good data (do not clear it)") and is surfaced to listeners. -/
def refreshStep (st : CoordinatorState) (fetch : FetchResult) (now : String) :
    CoordinatorState × Option UpdateError :=
  match asyncUpdateData st fetch now with
  | .ok (st1, newData) => ({ st1 with data := some newData }, none)
  | .error e => (st, some e)

/-- The method `update_config` (coordinator.py lines 110-126): each field
is assigned exactly when the corresponding argument `is not None`. -/
def update_config (st : CoordinatorState)
    (municipalities situationTypes : Option (List String)) : CoordinatorState :=
  let st1 :=
    match municipalities with
    | some ms => { st with municipalities := ms }
    | none => st
  match situationTypes with
  | some ts => { st1 with situationTypes := some ts }
  | none => st1

/-! ## Entity registry and reconcile pass (sensor.py `_async_add_remove_entities`) -/

/-- An entity-registry entry for the owning config entry, as read by the
reconcile pass: its domain and its unique_id.  (The pass removes an entry
through its entity_id; entity ids identify registry entries one-to-one,
so the entry itself serves as the removal handle here.) -/
structure RegistryEntry where
  domain : String
  uniqueId : String
deriving DecidableEq, Repr

/-- Boolean test that `sep` is a leading piece of the second list. -/
def isPrefixL : List Char → List Char → Bool
  | [], _ => true
  | _ :: _, [] => false
  | a :: as, b :: bs => a = b && isPrefixL as bs

/-- Worker for `pySplit`: scan left to right; at the leftmost occurrence
of `sep` emit the accumulated piece and restart after it, else keep the
character.  The fuel argument (instantiated with the list's length, which
bounds the number of steps whenever `sep` is non-empty) only makes the
recursion structural. -/
def splitOnCharsAux (sep : List Char) : Nat → List Char → List Char → List (List Char)
  | _, [], acc => [acc.reverse]
  | 0, l, acc => [acc.reverse ++ l]
  | Nat.succ fuel, c :: cs, acc =>
    if isPrefixL sep (c :: cs) then
      acc.reverse :: splitOnCharsAux sep fuel ((c :: cs).drop sep.length) []
    else
      splitOnCharsAux sep fuel cs (c :: acc)

/-- Python's `s.split(sep)` for a non-empty separator: the pieces between
leftmost non-overlapping occurrences of `sep`, with empty pieces kept
(`"".split(sep) == [""]`, `"_msg_".split("_msg_") == ["", ""]`). -/
def pySplit (s : String) (sep : String) : List String :=
  (splitOnCharsAux sep.data s.data.length s.data []).map (fun cs => String.mk cs)

/-- Key extraction from a registry unique_id (sensor.py lines 57-61):
`if "_msg_" in unique_id: parts = unique_id.split("_msg_");
if len(parts) == 2: situation_id = parts[1]`.  A unique_id without
`"_msg_"` splits into one part and is skipped, exactly as the `in` test
skips it; more than one occurrence gives more than two parts and is
skipped by the length test. -/
def extractSituationId (uid : String) : Option String :=
  match pySplit uid "_msg_" with
  | [_, sid] => some sid
  | _ => none

/-- Python dict insertion `d[k] = v` on an insertion-ordered dict modelled
as an association list: overwrite in place if the key exists, else append. -/
def dictInsert (l : List (String × RegistryEntry)) (k : String) (v : RegistryEntry) :
    List (String × RegistryEntry) :=
  if l.any (fun p => p.1 = k) then
    l.map (fun p => if p.1 = k then (k, v) else p)
  else l ++ [(k, v)]

/-- One iteration of the loop building `existing_sensors` (sensor.py
lines 52-61): an entry of domain `"sensor"` whose unique_id yields a
situation id is recorded under that id; every other entry is skipped. -/
def existingSensorsStep (acc : List (String × RegistryEntry)) (e : RegistryEntry) :
    List (String × RegistryEntry) :=
  if e.domain = "sensor" then
    match extractSituationId e.uniqueId with
    | some sid => dictInsert acc sid e
    | none => acc
  else acc

/-- The `existing_sensors` dict (sensor.py lines 50-61), built by
iterating the registry entries of this config entry. -/
def existingSensors (registry : List RegistryEntry) : List (String × RegistryEntry) :=
  registry.foldl existingSensorsStep []

/-- Python truthiness filter on a situation id, as in the set
comprehension `... if msg.get("properties", {}).get("situationId")`
(sensor.py lines 44-48): `None` and the empty string are falsy. -/
def truthyId (s : Option String) : Option String :=
  match s with
  | some s => if s = "" then none else some s
  | none => none

/-- The set `current_situation_ids` (sensor.py lines 44-48), as the list
of truthy situation ids of the current messages (used through membership
only, so duplicates are immaterial). -/
def currentSituationIds (msgs : List Feature) : List String :=
  msgs.filterMap (fun m => truthyId m.situationId)

/-- The keys removed by the pass (sensor.py line 64):
`removed_ids = set(existing_sensors.keys()) - current_situation_ids`. -/
def reconcileRemoveKeys (msgs : List Feature) (existingKeys : List String) :
    List String :=
  existingKeys.filter (fun k => !((currentSituationIds msgs).contains k))

/-- Membership of a message's situation id in `new_ids` (sensor.py
line 73): `new_ids = current_situation_ids - set(existing_sensors.keys())`. -/
def sidIsNew (msgs : List Feature) (existingKeys : List String) (sid : String) : Bool :=
  (currentSituationIds msgs).contains sid && !(existingKeys.contains sid)

/-- The messages for which the pass creates and adds a sensor (sensor.py
lines 75-85): each `msg` whose `situationId` lies in `new_ids` (an absent
id is never in `new_ids`, matching Python's `None in new_ids`). -/
def reconcileAddMessages (msgs : List Feature) (existingKeys : List String) :
    List Feature :=
  msgs.filter (fun m =>
    match m.situationId with
    | some sid => sidIsNew msgs existingKeys sid
    | none => false)

/-- The unique_id declared by `DigitrafficTrafficMessageSensor.__init__`
(sensor.py line 117): `f"digitraffic_{situation_id}"`.  The config entry
is passed in and stored (`self._entry_id = entry.entry_id`, line 114) but
takes no part in the unique_id. -/
def trafficSensorUniqueId (entryId : String) (situationId : String) : String :=
  let _ := entryId
  "digitraffic_" ++ situationId

/-- The unique_id declared by `DigitrafficWeathercamCamera.__init__`
(camera.py line 198): `f"{entry.entry_id}_wc_{self._preset_id}"`. -/
def cameraUniqueId (entryId : String) (presetId : String) : String :=
  entryId ++ "_wc_" ++ presetId

/-- Effect of one full reconcile pass on the registry entries of the
config entry (sensor.py lines 36-85): remove the entries recorded in
`existing_sensors` under a key not among the current situation ids, then
register the newly created sensors — each a domain-`"sensor"` entry
carrying the unique_id the sensor declares (the registration itself being
done by the framework from `async_add_entities`). -/
def applyReconcile (msgs : List Feature) (entryId : String)
    (registry : List RegistryEntry) : List RegistryEntry :=
  let existing := existingSensors registry
  let existingKeys := existing.map (·.1)
  let removedEntries :=
    (existing.filter (fun p => !((currentSituationIds msgs).contains p.1))).map (·.2)
  let added :=
    (reconcileAddMessages msgs existingKeys).filterMap
      (fun m => (m.situationId).map
        (fun sid => RegistryEntry.mk "sensor" (trafficSensorUniqueId entryId sid)))
  registry.filter (fun e => !(removedEntries.contains e)) ++ added

/-- The keys the reconcile pass would treat as existing on its next run,
after a given registry state. -/
def existingKeysOf (registry : List RegistryEntry) : List String :=
  (existingSensors registry).map (·.1)

/-! ## Weathercam camera image fetch (camera.py `async_camera_image`) -/

/-- Mutable image state of `DigitrafficWeathercamCamera`: `_last_image`
and `_last_updated`, both `None` at construction (camera.py
lines 209-210). -/
structure CameraState where
  lastImage : Option Bytes
  lastUpdated : Option String
deriving DecidableEq, Repr

/-- Outcome of one image HTTP request: a response with its status code
and body, or a raised transport error — `aiohttp.ClientError` or
`OSError`, the two classes `async_camera_image` catches. -/
inductive ImageFetchOutcome where
  | response (status : Nat) (body : Bytes)
  | clientError
  | osError
deriving DecidableEq, Repr

/-- The body of `async_camera_image` (camera.py lines 215-262) with the
request outcome and the clock passed in explicitly.  Status 200: store
the body in `_last_image`, record `_last_updated`, return the body.  Any
other status (403 logged at debug, the rest at warning) and either caught
error class: fall through to `return self._last_image` with the state
untouched.  The function never raises. -/
def asyncCameraImage (st : CameraState) (o : ImageFetchOutcome) (now : String) :
    CameraState × Option Bytes :=
  match o with
  | .response status body =>
      if status = 200 then
        ({ lastImage := some body, lastUpdated := some now }, some body)
      else
        (st, st.lastImage)
  | .clientError => (st, st.lastImage)
  | .osError => (st, st.lastImage)

/-- Whether an image request outcome is a failure: any non-200 status or
either caught transport error. -/
def fetchFails (o : ImageFetchOutcome) : Bool :=
  match o with
  | .response status _ => !(status == 200)
  | .clientError => true
  | .osError => true

/-- The image state at construction (camera.py lines 209-210). -/
def initCameraState : CameraState :=
  { lastImage := none, lastUpdated := none }

/-- A history of image requests: each with its outcome and the clock
value at that request. -/
abbrev FetchTrace := List (ImageFetchOutcome × String)

/-- Camera image state after a history of requests, starting from the
freshly constructed entity. -/
def runCamera (trace : FetchTrace) : CameraState :=
  trace.foldl (fun st p => (asyncCameraImage st p.1 p.2).1) initCameraState

/-- The body of the most recent status-200 response in a history, if
any. -/
def lastSuccessBytes (trace : FetchTrace) : Option Bytes :=
  trace.foldl
    (fun acc p =>
      match p.1 with
      | .response status body => if status = 200 then some body else acc
      | _ => acc)
    none

end Digitraffic

namespace Digitraffic

/-! ## Theorems: coordinator filter (C4, C9) -/

theorem featureMatches_of_mem_published {ms : List String} {fs : List Feature}
    (hms : ms ≠ []) {f : Feature} (hf : f ∈ publishedFeatures ms fs) :
    featureMatches ms f = true := by
  have : ¬ ms.isEmpty = true := by
    simpa [List.isEmpty_iff] using hms
  simpa [publishedFeatures, this] using (List.mem_filter.mp (by simpa [publishedFeatures, this] using hf)).2

/-- C4: with a non-empty municipalities filter, every feature the
coordinator publishes has at least one announcement whose primary-point or
secondary-point municipality belongs to the configured municipalities. -/
theorem published_feature_has_matching_announcement
    (ms : List String) (fs : List Feature) (hms : ms ≠ [])
    (f : Feature) (hf : f ∈ publishedFeatures ms fs) :
    ∃ a ∈ f.featureAnnouncements,
      (∃ m, a.primaryMuni = some m ∧ m ∈ ms) ∨
      (∃ m, a.secondaryMuni = some m ∧ m ∈ ms) := by
  have hmatch := featureMatches_of_mem_published hms hf
  rcases List.any_eq_true.mp hmatch with ⟨a, ha, hab⟩
  refine ⟨a, ha, ?_⟩
  rcases Bool.or_eq_true_iff.mp hab with h | h
  · left
    cases hpm : a.primaryMuni with
    | none => simp [optMuniMem, hpm] at h
    | some m =>
        exact ⟨m, rfl, by simpa [optMuniMem, hpm] using h⟩
  · right
    cases hpm : a.secondaryMuni with
    | none => simp [optMuniMem, hpm] at h
    | some m =>
        exact ⟨m, rfl, by simpa [optMuniMem, hpm] using h⟩

/-- Concrete feature with a single announcement located in Helsinki. -/
def helsinkiFeature : Feature :=
  { properties := some
      { situationId := some "S1"
        announcements := some
          [ { locationDetails := some
                { roadAddressLocation := some
                    { primaryPoint := some { municipality := some "Helsinki" }
                      secondaryPoint := none } } } ] } }

/-- Witness for C4 at a concrete input: filter `["Helsinki"]` on a list
holding `helsinkiFeature`. -/
theorem published_feature_has_matching_announcement_witness :
    ∃ a ∈ helsinkiFeature.featureAnnouncements,
      (∃ m, a.primaryMuni = some m ∧ m ∈ ["Helsinki"]) ∨
      (∃ m, a.secondaryMuni = some m ∧ m ∈ ["Helsinki"]) :=
  published_feature_has_matching_announcement ["Helsinki"] [helsinkiFeature]
    (by decide) helsinkiFeature (by decide)

/-- C9: for every municipalities filter (empty or not) the published list
is an order-preserving subsequence of the response's features, and each
feature occurs in it at most as often as in the response: the `break`
after the first matching announcement appends a feature at most once per
occurrence even when several of its announcements match. -/
theorem publishedFeatures_sublist_and_count
    (ms : List String) (fs : List Feature) :
    (publishedFeatures ms fs).Sublist fs ∧
      ∀ f : Feature, (publishedFeatures ms fs).count f ≤ fs.count f := by
  have hsub : (publishedFeatures ms fs).Sublist fs := by
    unfold publishedFeatures
    by_cases h : ms.isEmpty
    · simp [h]
    · simp [h, List.filter_sublist]
  exact ⟨hsub, fun f => hsub.count_le f⟩

/-! ## Theorems: coordinator failure cycle (C6) and update_config (C8) -/

/-- C6: when the fetch of a poll cycle fails, the cycle raises
`UpdateFailed` wrapping the underlying error's message, and the
coordinator state — in particular its previously published data — is left
exactly as it was, so no entity is removed by that cycle. -/
theorem refreshStep_failure_preserves_state
    (st : CoordinatorState) (err now : String) :
    refreshStep st (.failure err) now =
      (st, some (.updateFailed ("Digitraffic API error: " ++ err))) := by
  rfl

/-- C8: update_config replaces `municipalities` exactly when a value is
provided and `situation_types` exactly when a value is provided, keeps a
field whose argument is absent, and changes nothing else — in particular
the published data and the last-update timestamp are untouched, i.e. the
call performs no refresh. -/
theorem update_config_spec (st : CoordinatorState)
    (ms ts : Option (List String)) :
    (update_config st ms ts).municipalities = ms.getD st.municipalities ∧
    (update_config st ms ts).situationTypes =
      (match ts with
       | some t => some t
       | none => st.situationTypes) ∧
    (update_config st ms ts).data = st.data ∧
    (update_config st ms ts).lastUpdateTime = st.lastUpdateTime := by
  cases ms <;> cases ts <;> simp [update_config]

/-! ## Theorems: reconcile pass (C5, C1, C2, C3) -/

theorem dictInsert_mem {l : List (String × RegistryEntry)} {k : String}
    {v : RegistryEntry} {p : String × RegistryEntry}
    (hp : p ∈ dictInsert l k v) : p ∈ l ∨ p = (k, v) := by
  unfold dictInsert at hp
  by_cases h : l.any (fun q => q.1 = k)
  · rw [if_pos h] at hp
    rcases List.mem_map.mp hp with ⟨q, hq, hqe⟩
    by_cases hk : q.1 = k
    · right
      rw [if_pos hk] at hqe
      exact hqe.symm
    · left
      rw [if_neg hk] at hqe
      exact hqe ▸ hq
  · rw [if_neg h] at hp
    rcases List.mem_append.mp hp with h1 | h1
    · exact Or.inl h1
    · exact Or.inr (by simpa using h1)

theorem existingSensors_pairs (registry : List RegistryEntry) :
    ∀ p ∈ existingSensors registry,
      p.2.domain = "sensor" ∧ extractSituationId p.2.uniqueId = some p.1 := by
  have aux : ∀ (rs : List RegistryEntry) (acc : List (String × RegistryEntry)),
      (∀ p ∈ acc, p.2.domain = "sensor" ∧ extractSituationId p.2.uniqueId = some p.1) →
      ∀ p ∈ rs.foldl existingSensorsStep acc,
        p.2.domain = "sensor" ∧ extractSituationId p.2.uniqueId = some p.1 := by
    intro rs
    induction rs with
    | nil => intro acc hacc p hp; exact hacc p (by simpa using hp)
    | cons e rest ih =>
        intro acc hacc p hp
        rw [List.foldl_cons] at hp
        refine ih (existingSensorsStep acc e) ?_ p hp
        intro q hq
        unfold existingSensorsStep at hq
        by_cases hd : e.domain = "sensor"
        · rw [if_pos hd] at hq
          cases hext : extractSituationId e.uniqueId with
          | none => rw [hext] at hq; exact hacc q hq
          | some sid =>
              rw [hext] at hq
              rcases dictInsert_mem hq with h1 | h1
              · exact hacc q h1
              · subst h1; exact ⟨hd, hext⟩
        · rw [if_neg hd] at hq
          exact hacc q hq
  exact aux registry [] (by simp)

theorem mem_currentSituationIds {msgs : List Feature} {sid : String} :
    sid ∈ currentSituationIds msgs ↔
      ∃ m ∈ msgs, truthyId m.situationId = some sid := by
  simp [currentSituationIds, List.mem_filterMap]

theorem truthyId_eq_some {o : Option String} {sid : String} :
    truthyId o = some sid ↔ o = some sid ∧ sid ≠ "" := by
  constructor
  · intro h
    cases o with
    | none => exact absurd h (by simp [truthyId])
    | some s =>
        by_cases he : s = ""
        · have hnone : truthyId (some s) = none := by simp [truthyId, he]
          rw [hnone] at h
          exact absurd h (by simp)
        · have hsome : truthyId (some s) = some s := by simp [truthyId, he]
          rw [hsome] at h
          have hss : s = sid := Option.some.inj h
          exact ⟨by rw [hss], hss ▸ he⟩
  · rintro ⟨h1, h2⟩
    subst h1
    simp [truthyId, h2]

theorem currentSituationIds_ne_empty {msgs : List Feature} {sid : String}
    (h : sid ∈ currentSituationIds msgs) : sid ≠ "" := by
  rcases mem_currentSituationIds.mp h with ⟨m, _, hm⟩
  exact (truthyId_eq_some.mp hm).2

/-- C5: the diff the reconcile pass computes is exactly the one the spec
states: the removed keys are the existing entity keys that are not among
the current situation ids; the added messages are the current messages
whose (truthy) situation id is not among the existing entity keys; and a
registry entry whose extracted key is still current is left in place by
the pass. -/
theorem reconcile_diff_spec (msgs : List Feature) (existingKeys : List String)
    (registry : List RegistryEntry) (entryId : String) :
    (∀ k, k ∈ reconcileRemoveKeys msgs existingKeys ↔
        k ∈ existingKeys ∧ k ∉ currentSituationIds msgs) ∧
    (∀ m, m ∈ reconcileAddMessages msgs existingKeys ↔
        m ∈ msgs ∧ ∃ sid, truthyId m.situationId = some sid ∧ sid ∉ existingKeys) ∧
    (∀ e ∈ registry,
        (∀ sid, extractSituationId e.uniqueId = some sid →
          sid ∈ currentSituationIds msgs) →
        e ∈ applyReconcile msgs entryId registry) := by
  refine ⟨?_, ?_, ?_⟩
  · intro k
    simp [reconcileRemoveKeys, List.mem_filter]
  · intro m
    simp only [reconcileAddMessages, List.mem_filter]
    constructor
    · rintro ⟨hm, hf⟩
      refine ⟨hm, ?_⟩
      revert hf
      cases hs : m.situationId with
      | none => intro hf; exact absurd hf (by simp)
      | some sid =>
          intro hf
          have hnew : sidIsNew msgs existingKeys sid = true := hf
          unfold sidIsNew at hnew
          rcases Bool.and_eq_true_iff.mp hnew with ⟨hcur, hnot⟩
          have hcur' : sid ∈ currentSituationIds msgs := by simpa using hcur
          refine ⟨sid, ?_, ?_⟩
          · exact truthyId_eq_some.mpr ⟨rfl, currentSituationIds_ne_empty hcur'⟩
          · simpa using hnot
    · rintro ⟨hm, sid, htr, hnot⟩
      rcases truthyId_eq_some.mp htr with ⟨hs, _⟩
      refine ⟨hm, ?_⟩
      rw [hs]
      show sidIsNew msgs existingKeys sid = true
      unfold sidIsNew
      refine Bool.and_eq_true_iff.mpr ⟨?_, ?_⟩
      · simpa using mem_currentSituationIds.mpr ⟨m, hm, htr⟩
      · simpa using hnot
  · intro e he hkeys
    have hnotrem : e ∉ ((existingSensors registry).filter
        (fun p => !((currentSituationIds msgs).contains p.1))).map (fun p => p.2) := by
      intro hmem
      rcases List.mem_map.mp hmem with ⟨p, hp, hpe⟩
      rcases List.mem_filter.mp hp with ⟨hpx, hpc⟩
      rcases existingSensors_pairs registry p hpx with ⟨_, hpext⟩
      have hcur : p.1 ∈ currentSituationIds msgs :=
        hkeys p.1 (by rw [← hpe]; exact hpext)
      have hpc' : p.1 ∉ currentSituationIds msgs := by simpa using hpc
      exact hpc' hcur
    simp only [applyReconcile]
    refine List.mem_append.mpr (Or.inl (List.mem_filter.mpr ⟨he, ?_⟩))
    simpa using hnotrem

/-- Concrete message with situation id `S1` and no announcements. -/
def featureS1 : Feature :=
  { properties := some { situationId := some "S1", announcements := none } }

/-- A registry entry whose unique_id is in the `..._msg_...` form the
reconcile pass parses. -/
def parsableEntryS1 : RegistryEntry :=
  { domain := "sensor", uniqueId := "entry_a_msg_S1" }

/-- Witness for C5 at concrete inputs: a stale key `S0` is removed, the
fresh message `featureS1` is added, and a still-current parsable entry is
left untouched by the pass. -/
theorem reconcile_diff_spec_witness :
    "S0" ∈ reconcileRemoveKeys [] ["S0"] ∧
    featureS1 ∈ reconcileAddMessages [featureS1] [] ∧
    parsableEntryS1 ∈ applyReconcile [featureS1] "entry_a" [parsableEntryS1] := by
  refine ⟨?_, ?_, ?_⟩
  · exact ((reconcile_diff_spec [] ["S0"] [] "entry_a").1 "S0").mpr
      ⟨by decide, by decide⟩
  · exact ((reconcile_diff_spec [featureS1] [] [] "entry_a").2.1 featureS1).mpr
      ⟨by decide, "S1", by decide, by decide⟩
  · refine (reconcile_diff_spec [featureS1] [] [parsableEntryS1] "entry_a").2.2
      parsableEntryS1 (by decide) ?_
    intro sid hsid
    have h1 : extractSituationId parsableEntryS1.uniqueId = some "S1" := by decide
    rw [h1] at hsid
    injection hsid with h2
    subst h2
    decide

/-- C1 fails on the code: starting from an empty registry with the single
current message `S1`, the first reconcile pass registers the sensor under
unique_id `"digitraffic_S1"`; since that unique_id has no `"_msg_"` part,
the second pass on the resulting registry extracts no existing key and
computes a non-empty diff — it adds `S1` again instead of an empty
toAdd/toRemove. -/
theorem reconcile_second_pass_diff_nonempty :
    applyReconcile [featureS1] "entry_a" [] =
      [{ domain := "sensor", uniqueId := "digitraffic_S1" }] ∧
    existingKeysOf (applyReconcile [featureS1] "entry_a" []) = [] ∧
    reconcileAddMessages [featureS1]
      (existingKeysOf (applyReconcile [featureS1] "entry_a" [])) = [featureS1] := by
  decide

/-- Registry entries of the config entry after the reconcile pass that
followed the first successful fetch of `[featureS1]`, starting from an
empty registry. -/
def registryAfterFirstPass : List RegistryEntry :=
  applyReconcile [featureS1] "entry_a" []

/-- C2 fails on the code: the message `S1` is present in two consecutive
successful fetches, yet the reconcile pass after the second fetch issues
an add operation for `S1` (its sensor's unique_id `"digitraffic_S1"`
cannot be parsed back by the `"_msg_"` key extraction), although it
issues no remove. -/
theorem second_fetch_reissues_add_for_message :
    reconcileRemoveKeys [featureS1] (existingKeysOf registryAfterFirstPass) = [] ∧
    reconcileAddMessages [featureS1] (existingKeysOf registryAfterFirstPass) =
      [featureS1] := by
  decide

/-- C3 fails on the code for traffic-message sensors: the unique_id
generated in `DigitrafficTrafficMessageSensor.__init__` does not involve
the config entry id, so two distinct config entries produce the same
unique_id for the same situation id. -/
theorem sensor_unique_id_collides_across_entries :
    trafficSensorUniqueId "entry_a" "S1" = trafficSensorUniqueId "entry_b" "S1" ∧
    ("entry_a" : String) ≠ "entry_b" := by
  decide

/-! ## Theorems: camera image fetch (C7, C10) -/

/-- C7: once some fetch has succeeded (the cached `_last_image` holds
bytes `b`), a failing fetch — HTTP 403, any other non-200 status, or a
caught transport error — leaves the camera state untouched and returns
exactly the cached bytes, without raising (the model is a total
function). -/
theorem failed_fetch_returns_cached_image
    (st : CameraState) (b : Bytes) (o : ImageFetchOutcome) (now : String)
    (hcache : st.lastImage = some b) (hfail : fetchFails o = true) :
    asyncCameraImage st o now = (st, some b) := by
  cases o with
  | response status body =>
      have h200 : ¬ status = 200 := by
        simpa [fetchFails] using hfail
      simp [asyncCameraImage, h200, hcache]
  | clientError => simp [asyncCameraImage, hcache]
  | osError => simp [asyncCameraImage, hcache]

/-- Witness for C7 at a concrete input: a camera holding bytes `[1, 2, 3]`
receives an HTTP 403 response and returns those bytes with its state
unchanged. -/
theorem failed_fetch_returns_cached_image_witness :
    asyncCameraImage { lastImage := some [1, 2, 3], lastUpdated := some "t0" }
        (.response 403 []) "t1" =
      ({ lastImage := some [1, 2, 3], lastUpdated := some "t0" }, some [1, 2, 3]) :=
  failed_fetch_returns_cached_image
    { lastImage := some [1, 2, 3], lastUpdated := some "t0" }
    [1, 2, 3] (.response 403 []) "t1" rfl (by decide)

theorem runCamera_lastImage_aux (trace : FetchTrace) :
    ∀ (st : CameraState) (acc : Option Bytes), st.lastImage = acc →
      (trace.foldl (fun st p => (asyncCameraImage st p.1 p.2).1) st).lastImage =
        trace.foldl
          (fun acc p =>
            match p.1 with
            | .response status body => if status = 200 then some body else acc
            | _ => acc)
          acc := by
  induction trace with
  | nil => intro st acc h; simpa using h
  | cons p rest ih =>
      intro st acc h
      rcases p with ⟨o, now⟩
      cases o with
      | response status body =>
          by_cases h200 : status = 200
          · simp only [List.foldl_cons, asyncCameraImage, h200, if_pos rfl]
            exact ih _ _ rfl
          · simp only [List.foldl_cons, asyncCameraImage, if_neg h200]
            exact ih _ _ h
      | clientError =>
          simp only [List.foldl_cons, asyncCameraImage]
          exact ih _ _ h
      | osError =>
          simp only [List.foldl_cons, asyncCameraImage]
          exact ih _ _ h

theorem runCamera_lastImage (trace : FetchTrace) :
    (runCamera trace).lastImage = lastSuccessBytes trace :=
  runCamera_lastImage_aux trace initCameraState none rfl

/-- C10: the public image interface is total over every history of
request outcomes: after any sequence of fetches, one more call returns
exactly the body of the most recent successful fetch of the whole
history, and `none` when no fetch has ever succeeded — in particular a
failing fetch with no prior success returns `none` rather than
raising. -/
theorem camera_image_returns_last_success_or_none
    (trace : FetchTrace) (o : ImageFetchOutcome) (now : String) :
    (asyncCameraImage (runCamera trace) o now).2 =
      lastSuccessBytes (trace ++ [(o, now)]) := by
  cases o with
  | response status body =>
      by_cases h200 : status = 200
      · simp [asyncCameraImage, lastSuccessBytes, List.foldl_append, h200]
      · simp only [asyncCameraImage, if_neg h200]
        simp only [lastSuccessBytes, List.foldl_append, List.foldl_cons,
          List.foldl_nil, if_neg h200]
        exact runCamera_lastImage_aux trace initCameraState none rfl
  | clientError =>
      simp only [asyncCameraImage]
      simp only [lastSuccessBytes, List.foldl_append, List.foldl_cons, List.foldl_nil]
      exact runCamera_lastImage_aux trace initCameraState none rfl
  | osError =>
      simp only [asyncCameraImage]
      simp only [lastSuccessBytes, List.foldl_append, List.foldl_cons, List.foldl_nil]
      exact runCamera_lastImage_aux trace initCameraState none rfl

end Digitraffic
